import Mathlib

/-!
Verification development for the thunderwpeconsole repository.

Shallow embedding of the session protocol layer:
* the JSON-RPC session client (`sendRpc`, `waitForEvent`, `getState`,
  `start`, `resume`) from the session module,
* the WebSocket transport (`connect`, `send`, `close`, `on`, `off`,
  `isConnected`) from `src/lib/websocket.js`,
* the WebInspector debug-feed client from `src/lib/webInspector.js`.

JSON values are modelled by the inductive `JVal`; `JSON.parse` (a platform
API, not repository code) is abstracted by delivering inbound messages
already classified as unparsable or parsed.  JavaScript property access,
strict equality and truthiness are modelled explicitly: reading a property
of `undefined` or `null` throws a `TypeError` (the `Except Unit` error),
reading an absent property of any other value yields `undefined`
(`Option.none`), and `===` between values of distinct references of
object/array type is `false` (the embedded comparands always originate from
distinct allocations: one side is parsed from the wire, the other is
caller-supplied).
-/

/-- JSON values as produced by `JSON.parse`. -/
inductive JVal where
  | null : JVal
  | bool : Bool → JVal
  | num : Int → JVal
  | str : String → JVal
  | arr : List JVal → JVal
  | obj : List (String × JVal) → JVal


namespace JVal

/-- Field lookup on a JSON value: an object's first binding of the key,
`undefined` (`none`) for a missing key or a non-object receiver.  (Throwing
receivers — `null`/`undefined` — are handled by `jsProp`/`jsPropU`.) -/
def lookup : JVal → String → Option JVal
  | .obj fields, k => (fields.find? (fun f => f.1 = k)).map (·.2)
  | _, _ => none

/-- JavaScript truthiness of a defined value: `null`, `false`, `0` and `""`
are falsy; every object and array is truthy. -/
def truthy : JVal → Bool
  | .null => false
  | .bool b => b
  | .num n => n ≠ 0
  | .str s => s ≠ ""
  | .arr _ => true
  | .obj _ => true

/-- JavaScript strict equality `===` between two defined values.
Primitives compare by value; objects and arrays compare by reference, and
the two comparands in this development always come from distinct
allocations, so the object/array cases are `false`. -/
def strictEq : JVal → JVal → Bool
  | .null, .null => true
  | .bool a, .bool b => a = b
  | .num a, .num b => a = b
  | .str a, .str b => a = b
  | _, _ => false

end JVal

/-- Property read `v.k`: throws a `TypeError` when the receiver is `null`,
otherwise looks the key up (absent keys give `undefined`). -/
def jsProp (v : JVal) (k : String) : Except Unit (Option JVal) :=
  match v with
  | .null => .error ()
  | v => .ok (v.lookup k)

/-- Property read `o.k` where the receiver may be `undefined` (`none`):
reading a property of `undefined` throws a `TypeError`. -/
def jsPropU (o : Option JVal) (k : String) : Except Unit (Option JVal) :=
  match o with
  | none => .error ()
  | some v => jsProp v k

/-- Strict equality `a === b` where the left side may be `undefined` and the
right side is a defined value: `undefined === v` is `false`. -/
def jseq (a : Option JVal) (b : JVal) : Bool :=
  match a with
  | none => false
  | some v => v.strictEq b

/-- An inbound `message` event as seen by a listener on the transport's
event bus.  `JSON.parse` is a platform API, so its outcome on
`event.detail` is part of the message classification:
`noEvent` models a falsy event argument, `emptyDetail` a falsy
`event.detail` (absent or the empty string), `malformed` a detail on which
`JSON.parse` throws, and `parsed v` a detail parsing to `v`. -/
inductive Inbound where
  | noEvent : Inbound
  | emptyDetail : Inbound
  | malformed : Inbound
  | parsed : JVal → Inbound


/-! ## `sendRpc` (session module)

```js
function sendRpc(method, params = {}) {
    return new Promise((resolve, reject) => {
        const id = nextId();
        const payload = { jsonrpc: '2.0', id, method, params };
        wsClient.send(JSON.stringify(payload));
        wsClient.on('message', (event) => {
            if (!event || !event.detail) return;
            try {
                const response = JSON.parse(event.detail);
                if (response.id === id) {
                    resolve(response.result || response);
                }
            } catch (error) {
                reject(error);
            }
        });
    });
}
```
-/

/-- Effect of one inbound message on the pending `sendRpc` future. -/
inductive RpcOutcome where
  | skip : RpcOutcome
  | resolved : JVal → RpcOutcome
  | rejected : RpcOutcome


/-- `response.result || response`: the `result` field when present and
truthy, otherwise the whole response value. -/
def rpcResolveVal (response : JVal) : JVal :=
  match response.lookup "result" with
  | some r => if r.truthy then r else response
  | none => response

/-- The message listener registered by `sendRpc` for allocated id `i`,
acting on one inbound message.  `response.id` throws on a parsed `null`
(caught, rejecting the future); otherwise the future resolves exactly on a
strict id match, with `response.result || response`. -/
def sendRpcHandler (i : Int) (m : Inbound) : RpcOutcome :=
  match m with
  | .noEvent => .skip
  | .emptyDetail => .skip
  | .malformed => .rejected
  | .parsed response =>
    match jsProp response "id" with
    | .error () => .rejected
    | .ok idField =>
      if jseq idField (.num i) then .resolved (rpcResolveVal response)
      else .skip

/-- `nextId`: returns the current counter and increments it
(`return messageId++`). -/
def nextId (messageId : Int) : Int × Int :=
  (messageId, messageId + 1)

/-- The id allocated by the `k`-th `nextId` call of a client whose counter
was seeded with `seed` (`jsonRpcId`). -/
def rpcIdAt (seed : Int) (k : Nat) : Int :=
  seed + k

/-! ## `waitForEvent` (session module)

```js
function waitForEvent(eventType, matchParams = {}) {
    return new Promise((resolve) => {
        const handleEvent = (event) => {
            if (!event || !event.detail) return;
            try {
                const response = JSON.parse(event.detail);
                if (
                    response.method === 'client.Controller.events.all' ||
                    response.params.event === eventType
                ) {
                    if (
                        Object.entries(matchParams).every(
                            ([key, value]) => response.params.params[key] === value
                        )
                    ) {
                        wsClient.off('message', handleEvent);
                        resolve(response);
                    }
                }
            } catch (_) {
                wsClient.off('message', handleEvent);
            }
        };
        wsClient.on('message', handleEvent);
    });
}
```
-/

/-- Effect of one inbound message on a registered event waiter:
`resolvedAndOff` is the match branch (`off` then `resolve`), `offOnly` the
catch branch (`off` without resolving). -/
inductive WaitOutcome where
  | skip : WaitOutcome
  | resolvedAndOff : JVal → WaitOutcome
  | offOnly : WaitOutcome


/-- `Object.entries(matchParams).every(([key, value]) =>
response.params.params[key] === value)`, with the property chain
re-evaluated per entry and short-circuiting on the first `false`; any
`TypeError` propagates to the surrounding catch. -/
def waitMatchEvery (response : JVal) : List (String × JVal) → Except Unit Bool
  | [] => .ok true
  | (key, value) :: rest => do
    let p ← jsProp response "params"
    let pp ← jsPropU p "params"
    let field ← jsPropU pp key
    if jseq field value then waitMatchEvery response rest
    else .ok false

/-- Body of the `waitForEvent` listener on a parsed response: the guard
`response.method === 'client.Controller.events.all' || response.params.event
=== eventType` (note the disjunction, short-circuiting so `response.params`
is only read when the first comparison is false), then the `matchParams`
conjunction.  Returns whether the waiter resolves; a `TypeError` anywhere
propagates. -/
def waitGuard (eventType : String) (matchParams : List (String × JVal))
    (response : JVal) : Except Unit Bool := do
  let methodField ← jsProp response "method"
  let cond ←
    if jseq methodField (.str "client.Controller.events.all") then pure true
    else do
      let p ← jsProp response "params"
      let ev ← jsPropU p "event"
      pure (jseq ev (.str eventType))
  if cond then waitMatchEvery response matchParams
  else .ok false

/-- The `handleEvent` listener registered by
`waitForEvent(eventType, matchParams)`, acting on one inbound message. -/
def waitHandler (eventType : String) (matchParams : List (String × JVal))
    (m : Inbound) : WaitOutcome :=
  match m with
  | .noEvent => .skip
  | .emptyDetail => .skip
  | .malformed => .offOnly
  | .parsed response =>
    match waitGuard eventType matchParams response with
    | .error () => .offOnly
    | .ok true => .resolvedAndOff response
    | .ok false => .skip

/-! ## WebSocket transport (`src/lib/websocket.js`)

```js
function send(data) {
    if (socket && socket.readyState === WebSocket.OPEN) {
        socket.send(data);
    } else {
        throw new Error('WebSocket is not open');
    }
}
```
-/

/-- `WebSocket.readyState` values. -/
inductive ReadyState where
  | CONNECTING : ReadyState
  | OPEN : ReadyState
  | CLOSING : ReadyState
  | CLOSED : ReadyState
deriving DecidableEq

/-- `send(data)`: when a socket exists and is Open the data is handed to
`socket.send`; otherwise the call throws synchronously.  The client's
socket field is modelled by its `readyState`, `none` meaning no socket. -/
def wsSend (socket : Option ReadyState) (data : String) :
    Except String String :=
  match socket with
  | some .OPEN => .ok data
  | _ => .error "WebSocket is not open"

/-! ### `close()` and the raw socket's listener list

```js
function close() {
    if (socket) {
        socket.removeEventListener('open', () => {});
        socket.removeEventListener('error', () => {});
        socket.removeEventListener('close', () => {});
        socket.removeEventListener('message', () => {});
        socket.close();
        socket = null;
    }
}
```

Closures are modelled by unique allocation tokens: every evaluation of an
arrow-function expression yields a fresh token, and
`removeEventListener` removes exactly the listener whose token it is
handed.  The four `() => {}` expressions in `close` are fresh
allocations, distinct from the `onOpen`/`onError`/`onClose`/`onMessage`
closures `connect` registered. -/

/-- The raw socket object underlying a transport: its attached listener
tokens (in registration order) and whether `socket.close()` was called. -/
structure RawSocket where
  listeners : List Nat
  closeCalled : Bool
deriving DecidableEq

/-- `removeEventListener`: removes the listener identified by `tok`;
a token that was never attached removes nothing. -/
def removeEventListener (sock : RawSocket) (tok : Nat) : RawSocket :=
  { sock with listeners := sock.listeners.filter (· ≠ tok) }

/-- Transport-side state for `close()`: the held socket reference (with
the socket object's state) and the next fresh closure token. -/
structure WSClientState where
  socket : Option RawSocket
  freshTok : Nat
deriving DecidableEq

/-- The socket the client holds after `connect` attached its four
listeners `onOpen, onError, onClose, onMessage` (tokens `t`..`t+3`). -/
def connectedSocket (t : Nat) : RawSocket :=
  { listeners := [t, t + 1, t + 2, t + 3], closeCalled := false }

/-- `close()`: when a socket is held, four `removeEventListener` calls are
made, each with a freshly allocated `() => {}` closure (tokens
`freshTok`..`freshTok+3`), then `socket.close()` runs and the reference is
dropped.  Returns the new client state and, for observation, the final
state of the socket object that was held (`none` when there was none). -/
def wsClose (s : WSClientState) : WSClientState × Option RawSocket :=
  match s.socket with
  | none => (s, none)
  | some sock =>
    let sock1 := removeEventListener sock s.freshTok
    let sock2 := removeEventListener sock1 (s.freshTok + 1)
    let sock3 := removeEventListener sock2 (s.freshTok + 2)
    let sock4 := removeEventListener sock3 (s.freshTok + 3)
    let final := { sock4 with closeCalled := true }
    ({ socket := none, freshTok := s.freshTok + 4 }, some final)

/-! ### The internal event bus: `on` and `off`

```js
function on(event, handler) {
    events.addEventListener(event, (e) => handler(e));
}
function off(event, handler) {
    events.removeEventListener(event, (e) => handler(e));
}
```

`on` wraps the handler in a freshly allocated closure before registering
it; `off` wraps the handler in *another* freshly allocated closure and asks
`EventTarget.removeEventListener` to remove that one.  `EventTarget`
compares listeners by reference, so only a token already in the list can be
removed. -/

/-- The transport's internal `EventTarget` for one event name: the wrapper
tokens registered for it, in order, plus the fresh-token counter. -/
structure Bus where
  fresh : Nat
  listeners : List Nat
deriving DecidableEq

/-- The empty bus. -/
def Bus.init : Bus := { fresh := 0, listeners := [] }

/-- `on(event, handler)`: allocates a fresh wrapper closure and registers
it with `addEventListener` (a fresh token is never already registered, so
it is always appended).  Returns the bus and the wrapper's token. -/
def busOn (b : Bus) : Bus × Nat :=
  ({ fresh := b.fresh + 1, listeners := b.listeners ++ [b.fresh] }, b.fresh)

/-- `off(event, handler)`: allocates another fresh wrapper closure and
passes it to `removeEventListener`, which removes by reference. -/
def busOff (b : Bus) : Bus :=
  { fresh := b.fresh + 1, listeners := b.listeners.filter (· ≠ b.fresh) }

/-- Every registered wrapper token was allocated before the counter. -/
def Bus.wf (b : Bus) : Prop :=
  ∀ t ∈ b.listeners, t < b.fresh

/-! ### One registered `waitForEvent` waiter driven through the bus -/

/-- A `waitForEvent(eventType, matchParams)` promise together with the bus
its `handleEvent` wrapper lives on: `token` is the wrapper's registration
token, `resolveCount` counts the `resolve(response)` invocations, and
`value` is the promise's settled value (first `resolve` wins). -/
structure WaiterSys where
  bus : Bus
  token : Nat
  resolveCount : Nat
  value : Option JVal

/-- Registering a fresh waiter on an empty bus
(`wsClient.on('message', handleEvent)`). -/
def registerWaiter : WaiterSys :=
  let p := busOn Bus.init
  { bus := p.1, token := p.2, resolveCount := 0, value := none }

/-- Delivery of one inbound `message` event to the waiter's wrapper: the
wrapper fires only while its token is registered; the match branch calls
`off` then `resolve`, the catch branch calls `off` alone.  A `resolve` on
an already-settled promise leaves the value unchanged. -/
def deliverToWaiter (eventType : String) (matchParams : List (String × JVal))
    (s : WaiterSys) (m : Inbound) : WaiterSys :=
  if s.token ∈ s.bus.listeners then
    match waitHandler eventType matchParams m with
    | .skip => s
    | .resolvedAndOff v =>
      { s with
        bus := busOff s.bus
        resolveCount := s.resolveCount + 1
        value := match s.value with | some w => some w | none => some v }
    | .offOnly => { s with bus := busOff s.bus }
  else s

/-! ### `connect` (a run up to the timeout timer)

```js
function connect({ url, timeout = 5000, protocols = [] }) {
    return new Promise((resolve, reject) => {
        if (socket) close();
        socket = new WebSocket(url, protocols);
        let connected = false;
        const onOpen = () => {
            clearTimeout(timeoutId);
            connected = true;
            events.dispatchEvent(new Event('open'));
            resolve();
        };
        const onError = (err) => {
            if (!connected) reject(new Error('WebSocket connection failed'));
            events.dispatchEvent(new CustomEvent('error', { detail: err }));
        };
        const onClose = () => { events.dispatchEvent(new Event('close')); };
        const onMessage = (message) => {
            events.dispatchEvent(new CustomEvent('message', { detail: message.data }));
        };
        socket.addEventListener('open', onOpen);
        ...
        timeoutId = setTimeout(() => {
            if (!connected) {
                close();
                reject(new Error('WebSocket connection timed out'));
            }
        }, timeout);
    });
}
```

A run of one `connect()` call is modelled as the sequence of raw-socket
events delivered before the timeout timer fires, followed by the timer
firing.  A promise settles once: the first `resolve`/`reject` wins. -/

/-- A raw-socket event delivered to the listeners `connect` attached. -/
inductive SockEv where
  | openEv : SockEv
  | errorEv : SockEv
  | closeEv : SockEv
  | messageEv : SockEv
deriving DecidableEq

/-- How the `connect()` promise settled. -/
inductive ConnResult where
  | opened : ConnResult
  | connFailed : ConnResult
  | timedOut : ConnResult
deriving DecidableEq

/-- State of one `connect()` call in flight.  `settled` records the first
settlement together with whether the client's socket reference had already
been released (by `close()`) at that instant; `socketPresent` is whether
the client still holds the socket; `socketOpen` is whether the underlying
socket's `readyState` is Open. -/
structure ConnState where
  connected : Bool
  socketPresent : Bool
  socketOpen : Bool
  settled : Option (ConnResult × Bool)
deriving DecidableEq

/-- State right after `socket = new WebSocket(url, protocols)`. -/
def ConnState.init : ConnState :=
  { connected := false, socketPresent := true, socketOpen := false,
    settled := none }

/-- First settlement wins (`resolve`/`reject` on a settled promise is a
no-op). -/
def settleOnce (s : ConnState) (r : ConnResult) : ConnState :=
  match s.settled with
  | some _ => s
  | none => { s with settled := some (r, !s.socketPresent) }

/-- Effect of one raw-socket event on the in-flight `connect`:
`onOpen` clears the timer, sets `connected` and resolves; `onError`
rejects with the connection-failed error when not yet connected (and does
not close the socket); `onClose`/`onMessage` only re-dispatch on the bus. -/
def connStep (s : ConnState) : SockEv → ConnState
  | .openEv =>
    settleOnce { s with connected := true, socketOpen := true } .opened
  | .errorEv => if s.connected then s else settleOnce s .connFailed
  | .closeEv => s
  | .messageEv => s

/-- The timeout timer firing: when `connected` is still false, `close()`
runs (releasing the socket) and then the promise is rejected with the
timed-out error. -/
def connTimer (s : ConnState) : ConnState :=
  if s.connected then s
  else settleOnce { s with socketPresent := false, socketOpen := false }
    .timedOut

/-- A whole run of `connect()`: the socket events delivered before the
timer, then the timer firing. -/
def connectRun (evs : List SockEv) : ConnState :=
  connTimer (evs.foldl connStep ConnState.init)

/-- `isConnected()`: a socket exists and its `readyState` is Open. -/
def connIsConnected (s : ConnState) : Bool :=
  s.socketPresent && s.socketOpen

/-! ## `getState` (session module)

```js
async function getState() {
    const result = await status();
    return result.filter((instance) => instance.callsign === callsign)[0].state;
}
```

`status()` resolves with the result of a `Controller.1.status` RPC, a JSON
array of plugin entries.  When no entry's `callsign` strictly equals the
configured callsign, `[0]` is `undefined` and reading `.state` throws a
`TypeError`, rejecting the `getState()` promise. -/

/-- `instance.callsign === callsign` for a non-`null` entry. -/
def matchesCallsign (callsign : String) (inst : JVal) : Bool :=
  jseq (inst.lookup "callsign") (.str callsign)

/-- `result.filter((instance) => instance.callsign === callsign)` with the
property read inside the callback able to throw on a `null` entry. -/
def filterCallsign (callsign : String) : List JVal → Except Unit (List JVal)
  | [] => .ok []
  | inst :: rest => do
    let cs ← jsProp inst "callsign"
    let tail ← filterCallsign callsign rest
    if jseq cs (.str callsign) then .ok (inst :: tail) else .ok tail

/-- `getState()` applied to the array the status RPC resolved with:
the `state` property of the first entry whose `callsign` matches, a thrown
`TypeError` (rejecting the promise) when there is none.  `.ok none` is the
JavaScript `undefined` returned when the matching entry lacks `state`. -/
def getStateFromStatus (callsign : String) (result : List JVal) :
    Except Unit (Option JVal) := do
  let ms ← filterCallsign callsign result
  match ms with
  | [] => .error ()
  | inst :: _ => jsProp inst "state"

/-! ## Lifecycle operations `start` and `resume` (session module)

```js
function start() {
    return new Promise(async (resolve, reject) => {
        const state = await getState();
        if (state === 'Activated' || state === 'Resumed') {
            resolve();
            return;
        }
        waitForEvent('statechange', { state: 'activated' }).then(resolve).catch(reject);
        await sendRpc('Controller.1.activate', { callsign });
    });
}
function resume() {
    return new Promise(async (resolve, reject) => {
        const state = await getState();
        if (state === 'Activated' || state === 'Resumed') {
            resolve();
            return;
        }
        waitForEvent('statechange', { suspended: false }).then(resolve).catch(reject);
        await  sendRpc('Controller.1.resume', { callsign })
    });
}
```

`getState()` issues one `Controller.1.status` request through `sendRpc`.
An operation's observable trace is modelled as the methods of the wire
requests it issues (in order), the event waiters it registers, and whether
it resolved immediately after the state check rather than awaiting a
confirmation event. -/

/-- Observable trace of one lifecycle operation, given the
externally-reported state the status query returned. -/
structure OpTrace where
  requests : List String
  waiters : List (String × List (String × JVal))
  immediate : Bool

/-- `start()` run against reported state `st` (a `state` string from the
status response): the status query always goes out first; when `st` is
`'Activated'` or `'Resumed'` the promise resolves at once, otherwise a
`statechange`/`activated` waiter is registered and `Controller.1.activate`
is sent. -/
def startTrace (st : String) : OpTrace :=
  if st = "Activated" ∨ st = "Resumed" then
    { requests := ["Controller.1.status"], waiters := [], immediate := true }
  else
    { requests := ["Controller.1.status", "Controller.1.activate"],
      waiters := [("statechange", [("state", .str "activated")])],
      immediate := false }

/-- `resume()` run against reported state `st`: the status query always
goes out first; when `st` is `'Activated'` or `'Resumed'` the promise
resolves at once, otherwise a `statechange`/`suspended: false` waiter is
registered and `Controller.1.resume` is sent. -/
def resumeTrace (st : String) : OpTrace :=
  if st = "Activated" ∨ st = "Resumed" then
    { requests := ["Controller.1.status"], waiters := [], immediate := true }
  else
    { requests := ["Controller.1.status", "Controller.1.resume"],
      waiters := [("statechange", [("suspended", .bool false)])],
      immediate := false }

/-! ## WebInspector debug-feed client (`src/lib/webInspector.js`)

```js
ws.on('open', () => {
    if (!ws) return;
    ws.send(JSON.stringify({ id: 1, method: 'Inspector.enable' }));
    ws.send(JSON.stringify({ id: 22, method: 'Console.enable' }));
    ws.send(JSON.stringify({ id: 23, method: 'Inspector.initialized' }));
});
```
-/

/-- One enablement request frame sent by the debug-feed client. -/
structure InspectorFrame where
  id : Nat
  method : String
deriving DecidableEq

/-- The `open` listener `connect` registers: when the client still holds
its transport (`wsPresent`), the three enablement requests go out in
source order; otherwise nothing is sent. -/
def inspectorOpenSends (wsPresent : Bool) : List InspectorFrame :=
  if wsPresent then
    [{ id := 1, method := "Inspector.enable" },
     { id := 22, method := "Console.enable" },
     { id := 23, method := "Inspector.initialized" }]
  else []

/-! ## Helper lemmas -/

/-- Property access on a non-`null` value never throws. -/
theorem jsProp_of_ne_null (v : JVal) (k : String) (h : v ≠ .null) :
    jsProp v k = .ok (v.lookup k) := by
  cases v
  · exact absurd rfl h
  all_goals rfl

/-- A strict-equality match against a number pins the compared value. -/
theorem jseq_num (o : Option JVal) (i : Int) (h : jseq o (.num i) = true) :
    o = some (.num i) := by
  match o with
  | none => exact absurd h (by simp [jseq])
  | some v =>
    cases v with
    | num a =>
      have : a = i := by
        have := h
        simp [jseq, JVal.strictEq] at this
        exact this
      subst this
      rfl
    | null => exact absurd h (by simp [jseq, JVal.strictEq])
    | bool b => exact absurd h (by simp [jseq, JVal.strictEq])
    | str s => exact absurd h (by simp [jseq, JVal.strictEq])
    | arr xs => exact absurd h (by simp [jseq, JVal.strictEq])
    | obj fs => exact absurd h (by simp [jseq, JVal.strictEq])

/-- On an array without `null` entries the filter callback never throws and
computes the ordinary filter by `matchesCallsign`. -/
theorem filterCallsign_ok (cs : String) (l : List JVal)
    (h : ∀ v ∈ l, v ≠ JVal.null) :
    filterCallsign cs l = .ok (l.filter (matchesCallsign cs)) := by
  induction l with
  | nil => rfl
  | cons a t ih =>
    have ha : a ≠ JVal.null := h a (List.mem_cons_self a t)
    have ht : filterCallsign cs t = .ok (t.filter (matchesCallsign cs)) :=
      ih fun v hv => h v (List.mem_cons_of_mem a hv)
    simp only [filterCallsign, jsProp_of_ne_null a "callsign" ha, ht]
    cases hb : jseq (a.lookup "callsign") (.str cs) <;>
      simp [Bind.bind, Except.bind, hb, List.filter_cons, matchesCallsign]

/-! ## Claim theorems -/

/-- C6: `send(data)` with no socket or a socket not in Open state throws
synchronously (`'WebSocket is not open'`) and never silently drops the
data; with an Open socket the data is passed to `socket.send`. -/
theorem c6_send_fails_sync_unless_open (sock : Option ReadyState)
    (data : String) :
    (sock = some ReadyState.OPEN → wsSend sock data = .ok data) ∧
    (sock ≠ some ReadyState.OPEN →
      wsSend sock data = .error "WebSocket is not open") := by
  constructor
  · intro h
    subst h
    rfl
  · intro h
    match sock with
    | none => rfl
    | some ReadyState.OPEN => exact absurd rfl h
    | some ReadyState.CONNECTING => rfl
    | some ReadyState.CLOSING => rfl
    | some ReadyState.CLOSED => rfl

/-- Witness for C6: an Open socket passes the data on; a missing socket and
a closed socket throw. -/
theorem c6_send_fails_sync_unless_open_witness :
    (wsSend (some ReadyState.OPEN) "hello" = .ok "hello") ∧
    ((none : Option ReadyState) ≠ some ReadyState.OPEN ∧
      wsSend none "hello" = .error "WebSocket is not open") ∧
    (some ReadyState.CLOSED ≠ some ReadyState.OPEN ∧
      wsSend (some ReadyState.CLOSED) "hello" =
        .error "WebSocket is not open") :=
  ⟨(c6_send_fails_sync_unless_open (some ReadyState.OPEN) "hello").1 rfl,
   ⟨by decide,
    (c6_send_fails_sync_unless_open none "hello").2 (by decide)⟩,
   ⟨by decide,
    (c6_send_fails_sync_unless_open (some ReadyState.CLOSED) "hello").2
      (by decide)⟩⟩

/-- C8: when the debug-feed connection reaches Open, exactly three
enablement requests go out, in the exact order `Inspector.enable` (id 1),
`Console.enable` (id 22), `Inspector.initialized` (id 23); in particular
`Inspector.initialized` is never sent before `Console.enable`. -/
theorem c8_inspector_enablement_order :
    inspectorOpenSends true =
      [{ id := 1, method := "Inspector.enable" },
       { id := 22, method := "Console.enable" },
       { id := 23, method := "Inspector.initialized" }] ∧
    (inspectorOpenSends true).length = 3 ∧
    (inspectorOpenSends true).findIdx
        (fun f => f.method = "Console.enable") <
      (inspectorOpenSends true).findIdx
        (fun f => f.method = "Inspector.initialized") := by
  refine ⟨rfl, rfl, ?_⟩
  decide

/-- C10: `resume()` against a reported state of `'Activated'` or
`'Resumed'` resolves immediately, sends no `Controller.1.resume` request
and registers no event waiter. -/
theorem c10_resume_noop_when_activated (st : String)
    (h : st = "Activated" ∨ st = "Resumed") :
    (resumeTrace st).immediate = true ∧
    "Controller.1.resume" ∉ (resumeTrace st).requests ∧
    (resumeTrace st).waiters = [] := by
  rw [resumeTrace, if_pos h]
  exact ⟨rfl, by decide, rfl⟩

/-- Witness for C10: an instance reported `'Activated'` (not yet resumed)
is never sent a resume request by `resume()`. -/
theorem c10_resume_noop_when_activated_witness :
    ("Activated" = "Activated" ∨ "Activated" = "Resumed") ∧
    ((resumeTrace "Activated").immediate = true ∧
      "Controller.1.resume" ∉ (resumeTrace "Activated").requests ∧
      (resumeTrace "Activated").waiters = []) :=
  ⟨Or.inl rfl, c10_resume_noop_when_activated "Activated" (Or.inl rfl)⟩

/-- C7 counterexample: `start()` invoked while the reported state is
`'Activated'` resolves immediately, but its request trace is the
`Controller.1.status` query — not empty — so a network request is issued,
contrary to the claim's "without issuing a network request". -/
theorem c7_start_sends_status_query :
    (startTrace "Activated").immediate = true ∧
    (startTrace "Activated").requests = ["Controller.1.status"] ∧
    (startTrace "Activated").requests ≠ [] := by
  refine ⟨rfl, rfl, ?_⟩
  decide

/-- C7 (amended): `start()` against a reported state of `'Activated'` or
`'Resumed'` resolves immediately without issuing an activation request
(`Controller.1.activate`) and without registering an event waiter; the only
request issued is the `Controller.1.status` state query. -/
theorem c7_start_noop_when_activated (st : String)
    (h : st = "Activated" ∨ st = "Resumed") :
    (startTrace st).immediate = true ∧
    "Controller.1.activate" ∉ (startTrace st).requests ∧
    (startTrace st).waiters = [] ∧
    (startTrace st).requests = ["Controller.1.status"] := by
  rw [startTrace, if_pos h]
  exact ⟨rfl, by decide, rfl, rfl⟩

/-- Witness for amended C7 at reported state `'Resumed'`. -/
theorem c7_start_noop_when_activated_witness :
    ("Resumed" = "Activated" ∨ "Resumed" = "Resumed") ∧
    ((startTrace "Resumed").immediate = true ∧
      "Controller.1.activate" ∉ (startTrace "Resumed").requests ∧
      (startTrace "Resumed").waiters = [] ∧
      (startTrace "Resumed").requests = ["Controller.1.status"]) :=
  ⟨Or.inr rfl, c7_start_noop_when_activated "Resumed" (Or.inr rfl)⟩

/-- C5: on a connected client, `close()` releases the socket reference and
a second `close()` is a no-op (the idempotence half of the claim holds),
but the socket object keeps all four listeners `connect` attached —
`removeEventListener` is handed freshly created `() => \x7b\x7d` closures,
which were never registered, so nothing is detached. -/
theorem c5_close_keeps_listeners :
    (wsClose { socket := some (connectedSocket 0), freshTok := 4 }).1.socket
        = none ∧
    (wsClose { socket := some (connectedSocket 0), freshTok := 4 }).2
        = some { listeners := [0, 1, 2, 3], closeCalled := true } ∧
    wsClose (wsClose { socket := some (connectedSocket 0), freshTok := 4 }).1
        = ((wsClose { socket := some (connectedSocket 0), freshTok := 4 }).1,
           none) := by
  decide

/-- The notification used against C3: a genuine match for a
`waitForEvent('statechange', { state: 'activated' })` waiter. -/
def c3Notification : JVal :=
  .obj [("method", .str "client.Controller.events.all"),
        ("params", .obj [("event", .str "statechange"),
                         ("params", .obj [("state", .str "activated")])])]

/-- C3: after a matching notification resolves the waiter, the waiter is
*not* deregistered — `off` passes a freshly created wrapper closure to
`removeEventListener`, so the `handleEvent` wrapper stays on the bus — and
delivering the same notification again fires the handler a second time,
which invokes `resolve` again (a double-fire, absorbed only by the
promise's settle-once semantics). -/
theorem c3_waiter_double_fire :
    (deliverToWaiter "statechange" [("state", JVal.str "activated")]
        registerWaiter (.parsed c3Notification)).resolveCount = 1 ∧
    (deliverToWaiter "statechange" [("state", JVal.str "activated")]
        registerWaiter (.parsed c3Notification)).token ∈
      (deliverToWaiter "statechange" [("state", JVal.str "activated")]
        registerWaiter (.parsed c3Notification)).bus.listeners ∧
    (deliverToWaiter "statechange" [("state", JVal.str "activated")]
      (deliverToWaiter "statechange" [("state", JVal.str "activated")]
        registerWaiter (.parsed c3Notification))
      (.parsed c3Notification)).resolveCount = 2 := by
  refine ⟨rfl, ?_, rfl⟩
  decide

/-- The notification used against C2: its envelope method is the reserved
`client.Controller.events.all` channel, its event type is `urlchange`, and
its inner parameters carry `state: 'activated'`. -/
def c2Notification : JVal :=
  .obj [("method", .str "client.Controller.events.all"),
        ("params", .obj [("event", .str "urlchange"),
                         ("params", .obj [("state", .str "activated")])])]

/-- C2: a waiter for event type `'statechange'` with
`{ state: 'activated' }` is resolved by a notification whose event type is
`'urlchange'` — the guard is the disjunction
`response.method === 'client.Controller.events.all' ||
response.params.event === eventType`, so the envelope-method test alone
lets any event type through once the `matchParams` keys match. -/
theorem c2_wrong_event_type_resolves :
    waitHandler "statechange" [("state", JVal.str "activated")]
        (.parsed c2Notification) = .resolvedAndOff c2Notification ∧
    (do
      let p ← jsProp c2Notification "params"
      jsPropU p "event") = Except.ok (some (JVal.str "urlchange")) ∧
    "urlchange" ≠ "statechange" := by
  refine ⟨rfl, rfl, ?_⟩
  decide

/-- C4 counterexample: a run in which the socket reports an error before
the timer fires also "never reaches Open within the timeout budget", yet
the future is rejected with the connection-failed error — not the timeout
error — and at the instant of rejection `close()` had not run (the `false`
in the settlement record: the socket reference was still held). -/
theorem c4_error_run_rejects_without_close :
    (connectRun [SockEv.errorEv]).settled =
      some (ConnResult.connFailed, false) ∧
    ConnResult.connFailed ≠ ConnResult.timedOut := by
  refine ⟨rfl, ?_⟩
  decide

/-- C4 (amended): in every `connect()` run in which the socket neither
reaches Open nor reports an error before the timeout timer fires, the
future is rejected with the timed-out error, `close()` has run before the
rejection (the `true` in the settlement record), and `isConnected()` is
false afterwards. -/
theorem c4_connect_timeout (evs : List SockEv)
    (hopen : SockEv.openEv ∉ evs) (herr : SockEv.errorEv ∉ evs) :
    (connectRun evs).settled = some (ConnResult.timedOut, true) ∧
    connIsConnected (connectRun evs) = false := by
  have hfold : evs.foldl connStep ConnState.init = ConnState.init := by
    induction evs with
    | nil => rfl
    | cons e t ih =>
      have he : connStep ConnState.init e = ConnState.init := by
        cases e with
        | openEv => exact absurd (List.mem_cons_self _ _) hopen
        | errorEv => exact absurd (List.mem_cons_self _ _) herr
        | closeEv => rfl
        | messageEv => rfl
      have ht := ih (fun hm => hopen (List.mem_cons_of_mem e hm))
        (fun hm => herr (List.mem_cons_of_mem e hm))
      rw [List.foldl_cons, he, ht]
  rw [connectRun, hfold]
  exact ⟨rfl, rfl⟩

/-- Witness for amended C4: a run that sees only a stray message and a
close event before the timer times out, closes and reports not
connected. -/
theorem c4_connect_timeout_witness :
    (SockEv.openEv ∉ [SockEv.messageEv, SockEv.closeEv] ∧
      SockEv.errorEv ∉ [SockEv.messageEv, SockEv.closeEv]) ∧
    ((connectRun [SockEv.messageEv, SockEv.closeEv]).settled =
        some (ConnResult.timedOut, true) ∧
      connIsConnected (connectRun [SockEv.messageEv, SockEv.closeEv]) =
        false) :=
  ⟨⟨by decide, by decide⟩,
   c4_connect_timeout [SockEv.messageEv, SockEv.closeEv] (by decide)
     (by decide)⟩

/-- C9: over a status result without `null` entries, `getState()` fails
(the thrown `TypeError` from reading `.state` of `undefined` rejects the
promise) whenever no entry's callsign matches the configured callsign, and
otherwise returns the `state` property of the first matching entry. -/
theorem c9_getState_callsign_lookup (cs : String) (result : List JVal)
    (hnull : ∀ v ∈ result, v ≠ JVal.null) :
    ((∀ v ∈ result, matchesCallsign cs v = false) →
      getStateFromStatus cs result = .error ()) ∧
    (∀ inst rest, result.filter (matchesCallsign cs) = inst :: rest →
      getStateFromStatus cs result = jsProp inst "state") := by
  have hf := filterCallsign_ok cs result hnull
  constructor
  · intro hall
    have hnil : result.filter (matchesCallsign cs) = [] :=
      List.filter_eq_nil_iff.mpr fun a ha => by simp [hall a ha]
    simp [getStateFromStatus, hf, hnil, Bind.bind, Except.bind]
  · intro inst rest hcons
    simp [getStateFromStatus, hf, hcons, Bind.bind, Except.bind]

/-- A status entry whose callsign is `Browser`. -/
def c9EntryBrowser : JVal :=
  .obj [("callsign", .str "Browser"), ("state", .str "Activated")]

/-- A status entry whose callsign is `UX`. -/
def c9EntryUX : JVal :=
  .obj [("callsign", .str "UX"), ("state", .str "Deactivated")]

/-- Witness for C9: against `[{callsign: 'Browser', ...}]` a client
configured for `UX` fails with the lookup `TypeError`; against a response
that does contain a `UX` entry it returns that entry's state. -/
theorem c9_getState_callsign_lookup_witness :
    getStateFromStatus "UX" [c9EntryBrowser] = .error () ∧
    getStateFromStatus "UX" [c9EntryBrowser, c9EntryUX] =
      .ok (some (JVal.str "Deactivated")) := by
  constructor
  · refine (c9_getState_callsign_lookup "UX" [c9EntryBrowser] ?_).1 ?_
    · intro v hv
      simp only [List.mem_singleton] at hv
      subst hv
      exact fun h => JVal.noConfusion h
    · intro v hv
      simp only [List.mem_singleton] at hv
      subst hv
      rfl
  · refine ((c9_getState_callsign_lookup "UX" [c9EntryBrowser, c9EntryUX]
      ?_).2 c9EntryUX [] rfl).trans rfl
    intro v hv
    simp only [List.mem_cons, List.mem_singleton] at hv
    rcases hv with hv | hv | hv
    · subst hv
      exact fun h => JVal.noConfusion h
    · subst hv
      exact fun h => JVal.noConfusion h
    · exact absurd hv (List.not_mem_nil v)

/-- Shape of the `sendRpc` listener on a parsed non-`null` response:
resolve on a strict id match with `response.result || response`, otherwise
do nothing. -/
theorem sendRpcHandler_parsed (i : Int) (response : JVal)
    (h : response ≠ .null) :
    sendRpcHandler i (.parsed response) =
      if jseq (response.lookup "id") (.num i) then
        .resolved (rpcResolveVal response)
      else .skip := by
  cases response
  · exact absurd rfl h
  all_goals rfl

/-- C1 counterexample: the matching response `{"id": 5, "result": false}`
resolves the pending id-5 future with the *whole response object* — because
`response.result || response` falls back to the response when the `result`
field is falsy — not with its `result` field `false`. -/
theorem c1_falsy_result_resolves_whole_response :
    sendRpcHandler 5
        (.parsed (JVal.obj [("id", JVal.num 5), ("result", JVal.bool false)]))
      = .resolved (JVal.obj [("id", JVal.num 5), ("result", JVal.bool false)])
    ∧ (JVal.obj [("id", JVal.num 5),
        ("result", JVal.bool false)]).lookup "result"
      = some (JVal.bool false)
    ∧ JVal.obj [("id", JVal.num 5), ("result", JVal.bool false)] ≠
        JVal.bool false :=
  ⟨rfl, rfl, fun h => JVal.noConfusion h⟩

/-- C1 (amended): for a pending `sendRpc` call with allocated id `i`, a
parsed inbound response resolves the future exactly when its `id` field
strictly equals `i`, and it resolves with the response's `result` field
when that field is present and truthy and with the whole response object
otherwise (`response.result || response`); any resolution pins the
message's id to the handler's own id, so a response carrying an id resolves
only the one future awaiting it, and distinct `nextId` calls always await
distinct ids. -/
theorem c1_rpc_resolution (i : Int) (m : Inbound) :
    (∀ response, m = .parsed response → response ≠ JVal.null →
      (sendRpcHandler i m = .resolved (rpcResolveVal response) ↔
        jseq (response.lookup "id") (.num i) = true)) ∧
    (∀ v, sendRpcHandler i m = .resolved v →
      ∃ response, m = .parsed response ∧
        jseq (response.lookup "id") (.num i) = true ∧
        v = rpcResolveVal response) ∧
    (∀ (j : Int) (v w : JVal), sendRpcHandler i m = .resolved v →
      sendRpcHandler j m = .resolved w → i = j) ∧
    (∀ (seed : Int) (k k' : Nat), k ≠ k' → rpcIdAt seed k ≠ rpcIdAt seed k')
    := by
  have resolvedOf : ∀ (n : Int) (v : JVal), sendRpcHandler n m = .resolved v →
      ∃ response, m = .parsed response ∧
        jseq (response.lookup "id") (.num n) = true ∧
        v = rpcResolveVal response := by
    intro n v hv
    cases m with
    | noEvent => exact RpcOutcome.noConfusion hv
    | emptyDetail => exact RpcOutcome.noConfusion hv
    | malformed => exact RpcOutcome.noConfusion hv
    | parsed response =>
      rcases Classical.em (response = JVal.null) with hnn | hnn
      · subst hnn
        exact RpcOutcome.noConfusion hv
      · rw [sendRpcHandler_parsed n response hnn] at hv
        cases hb : jseq (response.lookup "id") (.num n) with
        | true =>
          rw [if_pos hb] at hv
          exact ⟨response, rfl, hb, (RpcOutcome.resolved.inj hv).symm⟩
        | false =>
          have hc : ¬jseq (response.lookup "id") (JVal.num n) = true := by
            rw [hb]
            exact fun h => Bool.noConfusion h
          rw [if_neg hc] at hv
          exact RpcOutcome.noConfusion hv
  refine ⟨?_, resolvedOf i, ?_, ?_⟩
  · intro response hm hnull
    subst hm
    rw [sendRpcHandler_parsed i response hnull]
    cases hb : jseq (response.lookup "id") (.num i) with
    | true => exact iff_of_true (if_pos rfl) rfl
    | false =>
      rw [if_neg (fun h => Bool.noConfusion h)]
      exact iff_of_false (fun h => RpcOutcome.noConfusion h)
        (fun h => Bool.noConfusion h)
  · intro j v w hv hw
    obtain ⟨r, hmr, hbi, -⟩ := resolvedOf i v hv
    obtain ⟨r', hmr', hbj, -⟩ := resolvedOf j w hw
    rw [hmr] at hmr'
    have hrr : r = r' := Inbound.parsed.inj hmr'
    subst hrr
    have h1 := jseq_num _ _ hbi
    have h2 := jseq_num _ _ hbj
    rw [h1] at h2
    exact JVal.num.inj (Option.some.inj h2)
  · intro seed k k' hk
    simp only [rpcIdAt, ne_eq, add_right_inj, Int.natCast_inj]
    exact hk

/-- The response `{"id": 7, "result": 42}` used by the C1 witness. -/
def c1Response : JVal := .obj [("id", .num 7), ("result", .num 42)]

/-- Witness for amended C1 at id 7 and response `{"id": 7, "result": 42}`:
the future resolves with the truthy result `42`, the resolution pins the
message id, and the ids of the first two `nextId` calls differ. -/
theorem c1_rpc_resolution_witness :
    sendRpcHandler 7 (.parsed c1Response) =
      .resolved (rpcResolveVal c1Response) ∧
    rpcResolveVal c1Response = JVal.num 42 ∧
    (∃ response, Inbound.parsed c1Response = .parsed response ∧
      jseq (response.lookup "id") (JVal.num 7) = true ∧
      rpcResolveVal c1Response = rpcResolveVal response) ∧
    (7 : Int) = 7 ∧
    rpcIdAt 1 0 ≠ rpcIdAt 1 1 := by
  have h := c1_rpc_resolution 7 (.parsed c1Response)
  have hA := (h.1 c1Response rfl (fun hh => JVal.noConfusion hh)).mpr rfl
  exact ⟨hA, rfl, h.2.1 _ hA, h.2.2.1 7 _ _ hA hA, h.2.2.2 1 0 1 (by decide)⟩
